import Mathlib

/-!
Shallow embedding of the asynchronous result-polling and incremental-merge
engine of the websets tool: the React hook `useWebsetPolling`
(frontend, `useWebsetPolling.ts`).

Conventions of the embedding:
* TypeScript `T | undefined` (and `T | null`) fields become `Option T`.
* JavaScript truthiness is made explicit: a `string | undefined` value is
  truthy iff it is present and non-empty (`truthyS`), a
  `boolean | undefined` value is truthy iff it is `some true` (`truthyB`);
  `a || b` on such strings is `jsOr`.  Arrays are always truthy in
  JavaScript, so `liveData?.items || initialData.items || []` falls through
  only on `undefined`, never on `[]`.
* The hook's mutable cell state (`liveData`, `isPolling`,
  `pollingIntervalRef`, `pollCountRef`) is bundled into `SessionState`;
  one run of the async callback `pollWebsetStatus` with the awaited fetch
  result (`FetchOutcome`) becomes a pure state-transition function.
* Numeric payload fields (`progress.*`, `items_found`, ...) are carried as
  `Nat`/`Int`; they are opaque payload to the engine and are never compared
  or computed with.
-/

/-- `progress` object shape of the status endpoint response
(`part_006` lines 68-73 / `WebsetData.progress`). -/
structure Progress where
  found : Nat
  analyzed : Nat
  completion : Int
  time_left : Option Int := none
deriving DecidableEq

/-- A webset result item (`WebsetItem`, `types.ts`).  `id` is the required
dedup key; the remaining optional descriptive fields (name, title, url,
industry, ...) are payload that the polling core never reads, represented
here by the listed sample of them. -/
structure WebsetItem where
  id : String
  type : String := ""
  name : Option String := none
  title : Option String := none
  description : Option String := none
  url : Option String := none
deriving DecidableEq

/-- The snapshot shape held in `initialData` / `liveData`
(`WebsetData`, `types.ts`), restricted to the fields the polling hook
reads or writes. -/
structure WebsetData where
  webset_id : Option String := none
  external_id : Option String := none
  query : Option String := none
  entity_type : Option String := none
  status : Option String := none
  search_status : Option String := none
  items_found : Option Nat := none
  items_returned : Option Nat := none
  cost_deducted : Option String := none
  items : Option (List WebsetItem) := none
  is_processing : Option Bool := none
  is_complete : Option Bool := none
  progress : Option Progress := none
  message : Option String := none
deriving DecidableEq

/-- The typed payload of a successful status fetch, from the generic
argument of `backendApi.get` in `pollWebsetStatus`
(`part_006` lines 62-78). -/
structure ApiStatusResponse where
  webset_id : String
  status : String
  search_status : Option String := none
  is_processing : Bool
  is_complete : Bool
  progress : Option Progress := none
  items_found : Nat
  items_returned : Nat
  items : Option (List WebsetItem) := none
  message : String
deriving DecidableEq

/-- JavaScript truthiness of a `string | undefined` value: present and
non-empty. -/
def truthyS : Option String → Bool
  | none => false
  | some s => s != ""

/-- JavaScript truthiness of a `boolean | undefined` value. -/
def truthyB (b : Option Bool) : Bool := b.getD false

/-- JavaScript `a || b` on `string | undefined` values (empty string is
falsy). -/
def jsOr (a b : Option String) : Option String :=
  match a with
  | some s => if s = "" then b else some s
  | none => b

/-- The `id`s of an item list (`existingItemIds`, `part_006` lines 84-86;
the `Set` is embedded as the list of ids with membership testing). -/
def itemIds (l : List WebsetItem) : List String := l.map (fun it => it.id)

/-- The merge of one poll response's items into the accumulated items
(`part_006` lines 84-95): keep `existing` and append those incoming items
whose `id` is truthy (non-empty) and not already among `existing`'s ids. -/
def mergeItems (existing incoming : List WebsetItem) : List WebsetItem :=
  existing ++ incoming.filter
    (fun it => it.id != "" && !((itemIds existing).contains it.id))

/-- `liveData?.items || initialData.items || []` (`part_006` lines 85, 93):
the accumulated item list seen by a merge.  An empty array is truthy in
JavaScript, so only `undefined` falls through. -/
def existingItems (liveData : Option WebsetData) (initialData : WebsetData) :
    List WebsetItem :=
  match liveData with
  | some d =>
    match d.items with
    | some l => l
    | none => initialData.items.getD []
  | none => initialData.items.getD []

/-- The `setLiveData` argument built on a successful poll
(`part_006` lines 98-115): server-reported fields are copied from the
response, the auxiliary fields `query`/`entity_type`/`external_id`/
`cost_deducted` are `initialData.field || effectiveData.field` where
`effectiveData = liveData || initialData`, and `items` is the merged list. -/
def buildLiveData (initialData : WebsetData) (liveData : Option WebsetData)
    (apiData : ApiStatusResponse) (mergedItems : List WebsetItem) :
    WebsetData :=
  let effectiveData := liveData.getD initialData
  { webset_id := some apiData.webset_id
    status := some apiData.status
    search_status := apiData.search_status
    is_processing := some apiData.is_processing
    is_complete := some apiData.is_complete
    progress := apiData.progress
    items_found := some apiData.items_found
    items_returned := some apiData.items_returned
    message := some apiData.message
    query := jsOr initialData.query effectiveData.query
    entity_type := jsOr initialData.entity_type effectiveData.entity_type
    external_id := jsOr initialData.external_id effectiveData.external_id
    cost_deducted := jsOr initialData.cost_deducted effectiveData.cost_deducted
    items := some mergedItems }

/-- The hook state mutated by one poll cycle: the `liveData` state cell,
the `isPolling` state cell, whether `pollingIntervalRef.current` is
non-null, and the consecutive-error counter `pollCountRef.current`. -/
structure SessionState where
  liveData : Option WebsetData
  isPolling : Bool
  timerActive : Bool
  pollCount : Nat
deriving DecidableEq

/-- The three ways the awaited fetch inside `pollWebsetStatus` can go:
a successful envelope with data (`response.success && response.data`),
an unsuccessful envelope (the `else` branch, line 129), or a thrown
transport/parse error (the `catch` branch, line 132). -/
inductive FetchOutcome where
  | ok (apiData : ApiStatusResponse)
  | envelopeFailure
  | transportError
deriving DecidableEq

/-- One run of the async callback `pollWebsetStatus`
(`part_006` lines 55-148) as a state transition, given the outcome of the
awaited fetch.  A falsy captured `websetId` returns early (line 56).  On a
successful envelope: merge items, set `liveData`, stop polling when
`apiData.is_complete`, and reset the error counter.  On an unsuccessful
envelope: only a console warning, no state change.  On a thrown error:
increment the error counter and stop polling once it reaches 10. -/
def pollWebsetStatus (websetId : Option String) (initialData : WebsetData)
    (s : SessionState) (outcome : FetchOutcome) : SessionState :=
  if !truthyS websetId then s
  else
    match outcome with
    | .ok apiData =>
      let existing := existingItems s.liveData initialData
      let mergedItems := mergeItems existing (apiData.items.getD [])
      let newLive := buildLiveData initialData s.liveData apiData mergedItems
      let s1 : SessionState := { s with liveData := some newLive }
      let s2 : SessionState :=
        if apiData.is_complete
        then { s1 with isPolling := false, timerActive := false }
        else s1
      { s2 with pollCount := 0 }
    | .envelopeFailure => s
    | .transportError =>
      let c := s.pollCount + 1
      if c ≥ 10
      then { s with pollCount := c, isPolling := false, timerActive := false }
      else { s with pollCount := c }

/-- The polling decision (`shouldPoll`, `part_006` lines 32-52), with
`effectiveData = liveData || initialData` (line 29). -/
def shouldPoll (websetId : Option String) (enabled : Bool)
    (initialData : WebsetData) (liveData : Option WebsetData) : Bool :=
  let effectiveData := liveData.getD initialData
  if !truthyS websetId || !enabled then false
  else if initialData.is_processing.isSome || effectiveData.is_processing.isSome
  then
    (truthyB initialData.is_processing || truthyB effectiveData.is_processing)
      && !truthyB effectiveData.is_complete
  else
    let status := jsOr effectiveData.status initialData.status
    if truthyS status && (status == some "running" || status == some "pending")
    then true
    else if truthyS websetId && !truthyS status
            && !truthyB effectiveData.is_complete
    then true
    else false

/-- A sequence of poll cycles that all resolve with a successful envelope:
fold `pollWebsetStatus` over the list of responses. -/
def runPolls (websetId : Option String) (initialData : WebsetData)
    (s : SessionState) (rs : List ApiStatusResponse) : SessionState :=
  rs.foldl (fun t r => pollWebsetStatus websetId initialData t (.ok r)) s

/-- The accumulated item sequence a session currently exposes (the merged
state's items: what the next merge would treat as `existing`). -/
def currentItems (initialData : WebsetData) (s : SessionState) :
    List WebsetItem :=
  existingItems s.liveData initialData

/-- `k` consecutive poll cycles that all end in a thrown transport error. -/
def failIter (websetId : Option String) (initialData : WebsetData) :
    Nat → SessionState → SessionState
  | 0, s => s
  | k + 1, s =>
    pollWebsetStatus websetId initialData (failIter websetId initialData k s)
      .transportError

/-- The hook's surrounding component state: the current `websetId` prop
together with the session's mutable cells. -/
structure ControllerState where
  websetId : Option String
  session : SessionState
deriving DecidableEq

/-- Completion of a fetch that was issued earlier: the callback runs the
closure it captured at issue time, so it uses `issuedFor` (the `websetId`
captured by `useCallback`) and writes the shared state cells; the code of
`pollWebsetStatus` performs no comparison between the captured identifier
and the currently active `c.websetId` before applying the merge. -/
def completeFetch (c : ControllerState) (issuedFor : Option String)
    (initialData : WebsetData) (outcome : FetchOutcome) : ControllerState :=
  { c with session := pollWebsetStatus issuedFor initialData c.session outcome }

/-! ## Helper lemmas about the merge and the poll loop -/

theorem truthyS_some (w : String) (hw : w ≠ "") : truthyS (some w) = true := by
  simp [truthyS, hw]

theorem itemIds_append (l l' : List WebsetItem) :
    itemIds (l ++ l') = itemIds l ++ itemIds l' := by
  simp [itemIds]

theorem jsOr_eq_ite (a b : Option String) :
    jsOr a b = if truthyS a then a else b := by
  cases a with
  | none => simp [jsOr, truthyS]
  | some x => by_cases hx : x = "" <;> simp [jsOr, truthyS, hx]

/-- Merging a batch a second time appends nothing: every non-empty id of the
batch is already among the merged ids. -/
theorem mergeItems_merge_self (A B : List WebsetItem) :
    mergeItems (mergeItems A B) B = mergeItems A B := by
  have key : ∀ b ∈ B,
      (b.id != "" && !((itemIds (mergeItems A B)).contains b.id)) = false := by
    intro b hb
    by_cases h1 : b.id = ""
    · simp [h1]
    · by_cases h2 : b.id ∈ itemIds A
      · have hm : b.id ∈ itemIds (mergeItems A B) := by
          unfold mergeItems
          rw [itemIds_append]
          exact List.mem_append.mpr (Or.inl h2)
        simp [hm]
      · have hbF : b ∈ B.filter
            (fun it => it.id != "" && !((itemIds A).contains it.id)) := by
          refine List.mem_filter.mpr ⟨hb, ?_⟩
          simp [h1, h2]
        have hm : b.id ∈ itemIds (mergeItems A B) := by
          unfold mergeItems
          rw [itemIds_append]
          exact List.mem_append.mpr (Or.inr (List.mem_map_of_mem _ hbF))
        simp [hm]
  have hnil : B.filter
      (fun it => it.id != "" && !((itemIds (mergeItems A B)).contains it.id))
      = [] := by
    rw [List.filter_eq_nil_iff]
    intro b hb
    simp only [key b hb]
    exact Bool.false_ne_true
  have hexp : mergeItems (mergeItems A B) B = mergeItems A B ++ B.filter
      (fun it => it.id != "" && !((itemIds (mergeItems A B)).contains it.id)) :=
    rfl
  rw [hexp, hnil, List.append_nil]

/-! ## Claim theorems: the merge operation -/

/-- Claim C2: the merge returns the existing items followed by exactly those
incoming items whose id is non-empty and not among the existing ids, in the
incoming order; empty-id items are dropped; and on the spec's concrete
example the result is the three items 1, 2, 3 in that order. -/
theorem mergeItems_dedup_spec :
    (∀ A B : List WebsetItem,
      mergeItems A B
        = A ++ B.filter (fun it => decide (it.id ≠ "" ∧ it.id ∉ itemIds A))) ∧
    mergeItems [{ id := "1" }] [{ id := "2" }, { id := "1" }, { id := "3" }]
      = [{ id := "1" }, { id := "2" }, { id := "3" }] := by
  constructor
  · intro A B
    unfold mergeItems
    congr 1
    apply List.filter_congr
    intro it _
    by_cases h1 : it.id = ""
    · simp [h1]
    · by_cases h2 : it.id ∈ itemIds A
      · simp [h1, h2]
      · simp [h1, h2]
  · decide

/-- Claim C10: deduplication is performed only against the accumulated items,
never within the incoming batch: for an id that is non-empty and not among
the existing ids, every occurrence in the incoming batch survives the merge
(the count of that id in the result equals its count in the batch), so a
single merge can produce duplicate ids. -/
theorem merge_no_intra_batch_dedup :
    (∀ (A B : List WebsetItem) (x : String), x ≠ "" → x ∉ itemIds A →
      List.countP (fun it => it.id == x) (mergeItems A B)
        = List.countP (fun it => it.id == x) B) ∧
    mergeItems [] [{ id := "x" }, { id := "x", name := some "second" }]
      = [{ id := "x" }, { id := "x", name := some "second" }] := by
  constructor
  · intro A B x hx hA
    unfold mergeItems
    rw [List.countP_append]
    have h1 : List.countP (fun it => it.id == x) A = 0 := by
      rw [List.countP_eq_zero]
      intro a ha
      simp only [beq_iff_eq]
      intro he
      exact hA (he ▸ List.mem_map_of_mem _ ha)
    have h2 : List.countP (fun it => it.id == x)
        (B.filter (fun it => it.id != "" && !((itemIds A).contains it.id)))
          = List.countP (fun it => it.id == x) B := by
      rw [List.countP_filter]
      apply List.countP_congr
      intro a _
      constructor
      · intro h
        exact (Bool.and_eq_true _ _).mp h |>.1
      · intro h
        have ha : a.id = x := by simpa using h
        have hpred : (a.id != "" && !((itemIds A).contains a.id)) = true := by
          simp [ha, hx, hA]
        exact (Bool.and_eq_true _ _).mpr ⟨h, hpred⟩
    rw [h1, h2, Nat.zero_add]
  · decide

/-- Claim C3 (first half) depends on the poll-loop step lemmas below; see
`mergeItems_idempotent`. -/
theorem runPolls_append_single (wid : Option String) (seed : WebsetData)
    (s : SessionState) (rs : List ApiStatusResponse) (r : ApiStatusResponse) :
    runPolls wid seed s (rs ++ [r])
      = pollWebsetStatus wid seed (runPolls wid seed s rs) (.ok r) := by
  simp [runPolls, List.foldl_append]

theorem currentItems_pollOk (wid : String) (seed : WebsetData)
    (t : SessionState) (r : ApiStatusResponse) (hw : wid ≠ "") :
    currentItems seed (pollWebsetStatus (some wid) seed t (.ok r))
      = mergeItems (currentItems seed t) (r.items.getD []) := by
  have h1 : truthyS (some wid) = true := truthyS_some wid hw
  cases hc : r.is_complete <;>
    simp [pollWebsetStatus, h1, hc, currentItems, existingItems, buildLiveData]

/-- Claim C3: the merge is idempotent with respect to an already-merged
batch, and consequently two poll cycles that return the same successful
response leave the same item sequence as one. -/
theorem mergeItems_idempotent :
    (∀ A B : List WebsetItem, mergeItems (mergeItems A B) B = mergeItems A B) ∧
    (∀ (wid : String) (seed : WebsetData) (s : SessionState)
        (r : ApiStatusResponse), wid ≠ "" →
      currentItems seed (runPolls (some wid) seed s [r, r])
        = currentItems seed (runPolls (some wid) seed s [r])) := by
  refine ⟨mergeItems_merge_self, ?_⟩
  intro wid seed s r hw
  have h1 : runPolls (some wid) seed s [r, r]
      = pollWebsetStatus (some wid) seed (runPolls (some wid) seed s [r])
          (.ok r) := rfl
  have h2 : runPolls (some wid) seed s [r]
      = pollWebsetStatus (some wid) seed s (.ok r) := rfl
  rw [h1, currentItems_pollOk wid seed _ r hw, h2,
    currentItems_pollOk wid seed s r hw]
  exact mergeItems_merge_self _ _

/-- Witness for C3 at concrete inputs. -/
theorem mergeItems_idempotent_witness :
    mergeItems (mergeItems [{ id := "1" }] [{ id := "2" }]) [{ id := "2" }]
      = mergeItems [{ id := "1" }] [{ id := "2" }] ∧
    currentItems {} (runPolls (some "w1") {} ⟨none, true, true, 0⟩
        [{ webset_id := "w", status := "running", is_processing := true,
           is_complete := false, items_found := 1, items_returned := 1,
           items := some [{ id := "a" }], message := "m" },
         { webset_id := "w", status := "running", is_processing := true,
           is_complete := false, items_found := 1, items_returned := 1,
           items := some [{ id := "a" }], message := "m" }])
      = currentItems {} (runPolls (some "w1") {} ⟨none, true, true, 0⟩
        [{ webset_id := "w", status := "running", is_processing := true,
           is_complete := false, items_found := 1, items_returned := 1,
           items := some [{ id := "a" }], message := "m" }]) :=
  ⟨mergeItems_idempotent.1 [{ id := "1" }] [{ id := "2" }],
   mergeItems_idempotent.2 "w1" {} ⟨none, true, true, 0⟩
     { webset_id := "w", status := "running", is_processing := true,
       is_complete := false, items_found := 1, items_returned := 1,
       items := some [{ id := "a" }], message := "m" } (by decide)⟩

theorem currentItems_runPolls_extends (wid : String) (seed : WebsetData)
    (hw : wid ≠ "") :
    ∀ (rs : List ApiStatusResponse) (t : SessionState),
      ∃ u, currentItems seed (runPolls (some wid) seed t rs)
        = currentItems seed t ++ u := by
  intro rs
  induction rs with
  | nil => exact fun t => ⟨[], by simp [runPolls]⟩
  | cons r rs ih =>
    intro t
    obtain ⟨u, hu⟩ := ih (pollWebsetStatus (some wid) seed t (.ok r))
    refine ⟨(r.items.getD []).filter
      (fun it => it.id != ""
        && !((itemIds (currentItems seed t)).contains it.id)) ++ u, ?_⟩
    have hc : runPolls (some wid) seed t (r :: rs)
        = runPolls (some wid) seed
            (pollWebsetStatus (some wid) seed t (.ok r)) rs := rfl
    rw [hc, hu, currentItems_pollOk wid seed t r hw]
    exact (List.append_assoc _ _ _).symm ▸ rfl

/-- Claim C1: over any sequence of successful poll responses, the session's
accumulated item sequence is the seed's items followed by appended material;
each successful poll appends exactly the response items whose id is
non-empty and previously unseen, in response order; and every poll extends
the previous sequence (so an id, once present, is never removed or
repositioned). -/
theorem poll_merge_items_invariant (wid : String) (seed : WebsetData)
    (s : SessionState) (hw : wid ≠ "") (h0 : s.liveData = none) :
    (∀ rs : List ApiStatusResponse,
      ∃ u, currentItems seed (runPolls (some wid) seed s rs)
        = seed.items.getD [] ++ u) ∧
    (∀ (rs : List ApiStatusResponse) (r : ApiStatusResponse),
      currentItems seed (runPolls (some wid) seed s (rs ++ [r]))
        = currentItems seed (runPolls (some wid) seed s rs) ++
            (r.items.getD []).filter
              (fun it => it.id != ""
                && !((itemIds (currentItems seed
                        (runPolls (some wid) seed s rs))).contains it.id))) ∧
    (∀ (rs : List ApiStatusResponse) (r : ApiStatusResponse),
      ∃ u, currentItems seed (runPolls (some wid) seed s (rs ++ [r]))
        = currentItems seed (runPolls (some wid) seed s rs) ++ u) := by
  have hbase : currentItems seed s = seed.items.getD [] := by
    simp [currentItems, existingItems, h0]
  refine ⟨?_, ?_, ?_⟩
  · intro rs
    obtain ⟨u, hu⟩ := currentItems_runPolls_extends wid seed hw rs s
    exact ⟨u, by rw [hu, hbase]⟩
  · intro rs r
    rw [runPolls_append_single, currentItems_pollOk wid seed _ r hw]
    rfl
  · intro rs r
    rw [runPolls_append_single, currentItems_pollOk wid seed _ r hw]
    exact ⟨_, rfl⟩

/-- Witness for C1 at concrete inputs: a seed with one item, one poll
response. -/
theorem poll_merge_items_invariant_witness :
    ∃ u, currentItems { items := some [{ id := "s" }] }
        (runPolls (some "w1") { items := some [{ id := "s" }] }
          ⟨none, false, false, 0⟩
          [{ webset_id := "w", status := "running", is_processing := true,
             is_complete := false, items_found := 2, items_returned := 2,
             items := some [{ id := "a" }, { id := "s" }], message := "m" }])
      = ({ items := some [{ id := "s" }] } : WebsetData).items.getD [] ++ u :=
  (poll_merge_items_invariant "w1" { items := some [{ id := "s" }] }
      ⟨none, false, false, 0⟩ (by decide) rfl).1
    [{ webset_id := "w", status := "running", is_processing := true,
       is_complete := false, items_found := 2, items_returned := 2,
       items := some [{ id := "a" }, { id := "s" }], message := "m" }]

/-! ## Claim theorems: failure counting -/

theorem pollFail_eq (wid : String) (seed : WebsetData) (t : SessionState)
    (hw : wid ≠ "") :
    pollWebsetStatus (some wid) seed t .transportError =
      if t.pollCount + 1 ≥ 10
      then { t with pollCount := t.pollCount + 1, isPolling := false,
                    timerActive := false }
      else { t with pollCount := t.pollCount + 1 } := by
  have h1 : truthyS (some wid) = true := truthyS_some wid hw
  simp [pollWebsetStatus, h1]

theorem failIter_le_nine (wid : String) (seed : WebsetData) (s : SessionState)
    (hw : wid ≠ "") (h0 : s.pollCount = 0) :
    ∀ k, k ≤ 9 → failIter (some wid) seed k s = { s with pollCount := k } := by
  intro k
  induction k with
  | zero =>
    intro _
    cases s
    simp_all [failIter]
  | succ k ih =>
    intro hk
    rw [failIter, ih (by omega), pollFail_eq wid seed _ hw]
    rw [if_neg (by show ¬(k + 1 ≥ 10); omega)]

/-- Claim C5: a successful poll resets the consecutive-failure counter to 0;
from a fresh session, nine consecutive transport failures leave polling
running with the counter at the failure count, and the tenth failure stops
polling and cancels the timer with the counter at 10. -/
theorem consecutive_failures_stop_at_ten (wid : String) (seed : WebsetData)
    (s : SessionState) (hw : wid ≠ "") (h0 : s.pollCount = 0)
    (hp : s.isPolling = true) (ht : s.timerActive = true) :
    (∀ (t : SessionState) (d : ApiStatusResponse),
      (pollWebsetStatus (some wid) seed t (.ok d)).pollCount = 0) ∧
    (∀ k, k ≤ 9 →
      (failIter (some wid) seed k s).isPolling = true ∧
      (failIter (some wid) seed k s).timerActive = true ∧
      (failIter (some wid) seed k s).pollCount = k) ∧
    ((failIter (some wid) seed 10 s).isPolling = false ∧
     (failIter (some wid) seed 10 s).timerActive = false ∧
     (failIter (some wid) seed 10 s).pollCount = 10) := by
  have h1 : truthyS (some wid) = true := truthyS_some wid hw
  refine ⟨?_, ?_, ?_⟩
  · intro t d
    unfold pollWebsetStatus
    rw [h1]
    rfl
  · intro k hk
    rw [failIter_le_nine wid seed s hw h0 k hk]
    exact ⟨hp, ht, rfl⟩
  · have h9 : failIter (some wid) seed 9 s = { s with pollCount := 9 } :=
      failIter_le_nine wid seed s hw h0 9 (by omega)
    have h10 : failIter (some wid) seed 10 s
        = pollWebsetStatus (some wid) seed { s with pollCount := 9 }
            .transportError := by
      rw [show (10 : Nat) = 9 + 1 from rfl, failIter, h9]
    rw [h10, pollFail_eq wid seed _ hw,
      if_pos (by show (9 : Nat) + 1 ≥ 10; omega)]
    exact ⟨rfl, rfl, rfl⟩

/-- Witness for C5 at concrete inputs. -/
theorem consecutive_failures_stop_at_ten_witness :
    (failIter (some "w1") {} 9 ⟨none, true, true, 0⟩).isPolling = true ∧
    (failIter (some "w1") {} 10 ⟨none, true, true, 0⟩).isPolling = false ∧
    (failIter (some "w1") {} 10 ⟨none, true, true, 0⟩).timerActive = false :=
  ⟨((consecutive_failures_stop_at_ten "w1" {} ⟨none, true, true, 0⟩
      (by decide) rfl rfl rfl).2.1 9 (by omega)).1,
   (consecutive_failures_stop_at_ten "w1" {} ⟨none, true, true, 0⟩
      (by decide) rfl rfl rfl).2.2.1,
   (consecutive_failures_stop_at_ten "w1" {} ⟨none, true, true, 0⟩
      (by decide) rfl rfl rfl).2.2.2.1⟩

/-- Claim C6 counterexample: an unsuccessful envelope is NOT treated like a
transport error — at the same concrete state the envelope failure leaves the
consecutive-failure counter at 4 while a transport error advances it to 5. -/
theorem envelope_failure_counterexample :
    (pollWebsetStatus (some "w1") {} ⟨none, true, true, 4⟩
        .envelopeFailure).pollCount ≠
      (pollWebsetStatus (some "w1") {} ⟨none, true, true, 4⟩
        .transportError).pollCount := by
  decide

/-- Claim C6 amended: a poll response whose envelope has success = false is a
no-op on the session state — it neither increments the consecutive-failure
counter nor stops polling; only thrown transport errors count toward the
failure budget. -/
theorem envelope_failure_noop (wid : Option String) (seed : WebsetData)
    (s : SessionState) :
    pollWebsetStatus wid seed s .envelopeFailure = s := by
  unfold pollWebsetStatus
  split
  · rfl
  · rfl

/-! ## Claim theorems: the polling decision -/

/-- Claim C4 counterexample: with both isProcessing flags undefined and a
live snapshot that is complete but still reports status running, the code
polls anyway — shouldPoll is true, not false as the claim states. -/
theorem shouldPoll_complete_running_counterexample :
    shouldPoll (some "w1") true {}
      (some { status := some "running", is_complete := some true }) = true := by
  decide

/-- Claim C4 amended: with a live snapshot whose isComplete is true,
shouldPoll is false provided at least one of the isProcessing flags is
defined, or the effective status string is neither running nor pending;
when both flags are undefined and the status is running or pending, the
decision is true despite completion. -/
theorem shouldPoll_complete_false_amended (seed live : WebsetData)
    (wid : Option String) (en : Bool) (hc : live.is_complete = some true)
    (h : (seed.is_processing ≠ none ∨ live.is_processing ≠ none) ∨
         (jsOr live.status seed.status ≠ some "running" ∧
          jsOr live.status seed.status ≠ some "pending")) :
    shouldPoll wid en seed (some live) = false := by
  rcases h with h | h
  · have hb : (seed.is_processing.isSome || live.is_processing.isSome)
        = true := by
      rcases h with h | h <;> simp [Option.isSome_iff_ne_none, h]
    simp [shouldPoll, hb, hc, truthyB]
  · by_cases hb : (seed.is_processing.isSome || live.is_processing.isSome)
        = true
    · simp [shouldPoll, hb, hc, truthyB]
    · have h3 : ((jsOr live.status seed.status == some "running")
          || (jsOr live.status seed.status == some "pending")) = false := by
        rcases h with ⟨h4, h5⟩
        simp [h4, h5]
      simp only [Bool.or_eq_true, not_or] at hb
      simp [shouldPoll, hb.1, hb.2, hc, truthyB, h3]

/-- Witness for the amended C4 at concrete inputs: completed live snapshot
with a defined isProcessing flag and status still running. -/
theorem shouldPoll_complete_false_amended_witness :
    shouldPoll (some "w1") true {}
      (some { status := some "running", is_processing := some true,
              is_complete := some true }) = false :=
  shouldPoll_complete_false_amended {}
    { status := some "running", is_processing := some true,
      is_complete := some true } (some "w1") true rfl
    (Or.inl (Or.inr (by decide)))

/-- Claim C9 counterexample: the empty string is a non-null jobId, yet it is
falsy in JavaScript, so the bootstrap rule does not fire and shouldPoll is
false, not true. -/
theorem shouldPoll_bootstrap_counterexample :
    shouldPoll (some "") true {} none = false := by
  decide

/-- Claim C9 amended: for a non-null, non-empty jobId with polling enabled,
no live snapshot, no defined isProcessing flag on the seed, no truthy seed
status, and isComplete not true, the decision is a probing poll: true. -/
theorem shouldPoll_bootstrap_amended (wid : String) (seed : WebsetData)
    (hw : wid ≠ "") (hp : seed.is_processing = none)
    (hs : truthyS seed.status = false) (hc : seed.is_complete ≠ some true) :
    shouldPoll (some wid) true seed none = true := by
  have hcb : truthyB seed.is_complete = false := by
    cases h : seed.is_complete with
    | none => rfl
    | some b =>
      cases b with
      | false => rfl
      | true => exact absurd h hc
  have h1 : truthyS (some wid) = true := truthyS_some wid hw
  have h2 : jsOr seed.status seed.status = seed.status := by
    cases h : seed.status with
    | none => rfl
    | some x => by_cases hx : x = "" <;> simp [jsOr, hx]
  simp [shouldPoll, h1, hp, h2, hs, hcb]

/-- Witness for the amended C9 at the spec's concrete bootstrap input. -/
theorem shouldPoll_bootstrap_amended_witness :
    shouldPoll (some "w1") true {} none = true :=
  shouldPoll_bootstrap_amended "w1" {} (by decide) rfl rfl (by decide)

/-! ## Claim theorems: stale responses and auxiliary field passthrough -/

/-- Claim C7: the completion callback has no active-identifier guard, so a
fetch issued for w1 that resolves after the controller's websetId prop has
moved to w2 is applied anyway: the shared liveData cell — now serving as
w2's live snapshot — is overwritten with a snapshot whose webset_id is w1. -/
theorem stale_response_applied :
    ((completeFetch ⟨some "w2", ⟨none, true, true, 0⟩⟩ (some "w1") {}
        (.ok { webset_id := "w1", status := "complete", is_processing := false,
               is_complete := true, items_found := 1, items_returned := 1,
               items := some [{ id := "a" }],
               message := "done" })).websetId = some "w2") ∧
    ((completeFetch ⟨some "w2", ⟨none, true, true, 0⟩⟩ (some "w1") {}
        (.ok { webset_id := "w1", status := "complete", is_processing := false,
               is_complete := true, items_found := 1, items_returned := 1,
               items := some [{ id := "a" }],
               message := "done" })).session.liveData ≠ none) ∧
    (((completeFetch ⟨some "w2", ⟨none, true, true, 0⟩⟩ (some "w1") {}
        (.ok { webset_id := "w1", status := "complete", is_processing := false,
               is_complete := true, items_found := 1, items_returned := 1,
               items := some [{ id := "a" }],
               message := "done" })).session.liveData.getD {}).webset_id
      = some "w1") := by
  refine ⟨rfl, ?_, rfl⟩
  decide

/-- Claim C8 counterexample: with the seed defining query a and the prior
live snapshot (more recently) defining query b, the merged snapshot keeps
the seed's a, not the live snapshot's b — the seed takes precedence, it is
not merely a fallback. -/
theorem aux_fields_counterexample :
    ((pollWebsetStatus (some "w1") { query := some "a" }
        ⟨some { query := some "b" }, true, true, 0⟩
        (.ok { webset_id := "w1", status := "running", is_processing := true,
               is_complete := false, items_found := 0, items_returned := 0,
               message := "" })).liveData.getD {}).query ≠ some "b" := by
  decide

/-- Claim C8 amended: across every successful merge the auxiliary
passthrough fields query, entityType, externalId and costDeducted are
sourced from the seed whenever the seed defines them (truthy), with the
prior live snapshot used only as the fallback — the opposite precedence to
the claim's. -/
theorem aux_fields_seed_precedence (wid : String) (seed live : WebsetData)
    (s : SessionState) (d : ApiStatusResponse) (hw : wid ≠ "")
    (hl : s.liveData = some live) :
    ((pollWebsetStatus (some wid) seed s (.ok d)).liveData.getD {}).query
        = (if truthyS seed.query then seed.query else live.query) ∧
    ((pollWebsetStatus (some wid) seed s (.ok d)).liveData.getD {}).entity_type
        = (if truthyS seed.entity_type then seed.entity_type
           else live.entity_type) ∧
    ((pollWebsetStatus (some wid) seed s (.ok d)).liveData.getD {}).external_id
        = (if truthyS seed.external_id then seed.external_id
           else live.external_id) ∧
    ((pollWebsetStatus (some wid) seed s
        (.ok d)).liveData.getD {}).cost_deducted
        = (if truthyS seed.cost_deducted then seed.cost_deducted
           else live.cost_deducted) := by
  have h1 : truthyS (some wid) = true := truthyS_some wid hw
  cases hc : d.is_complete <;>
    simp [pollWebsetStatus, h1, hc, hl, buildLiveData, jsOr_eq_ite]

/-- Witness for the amended C8 at concrete inputs. -/
theorem aux_fields_seed_precedence_witness :
    ((pollWebsetStatus (some "w1") { query := some "q" }
        ⟨some { entity_type := some "person" }, true, true, 0⟩
        (.ok { webset_id := "w1", status := "running", is_processing := true,
               is_complete := false, items_found := 0, items_returned := 0,
               message := "" })).liveData.getD {}).query
      = (if truthyS (some "q") then some "q" else none) :=
  (aux_fields_seed_precedence "w1" { query := some "q" }
      { entity_type := some "person" }
      ⟨some { entity_type := some "person" }, true, true, 0⟩
      { webset_id := "w1", status := "running", is_processing := true,
        is_complete := false, items_found := 0, items_returned := 0,
        message := "" } (by decide) rfl).1

/-- Witness for C10 at concrete inputs: a batch with a repeated unseen id
keeps both occurrences. -/
theorem merge_no_intra_batch_dedup_witness :
    List.countP (fun it => it.id == "x")
        (mergeItems [] [{ id := "x" }, { id := "x", name := some "second" }])
      = List.countP (fun it => it.id == "x")
        [{ id := "x" }, ({ id := "x", name := some "second" } : WebsetItem)] :=
  merge_no_intra_batch_dedup.1 []
    [{ id := "x" }, { id := "x", name := some "second" }] "x"
    (by decide) (by decide)
